import Mathlib

/-!
Verification of the pet-adoption backend (c17-71-m-python).

The definitions below are a shallow embedding of the Python source:

* `PetAdoption.get_validated_token` embeds
  `JWTAuthentication.get_validated_token` from
  `src/backend/src/apps/users/authentication.py` (lines 25-42).
* `PetAdoption.get_user` embeds `JWTAuthentication.get_user` from the same
  file (lines 44-76).
* `PetAdoption.permission_denied`, `PetAdoption.post` embed
  `ShelterAPIView.permission_denied` and `ShelterAPIView.post` from
  `src/backend/src/apps/users/infrastructure/views/shelter.py`.
* `PetAdoption.create_base_user` embeds `CustomUserManager.create_base_user`
  from `src/backend/src/apps/users/models.py`.
* The blacklist check and the registration use case are modelled from the
  spec where noted, since their enforcement code is outside the provided
  source tree.
-/

namespace PetAdoption

/-- A configured token-type validator: the Lean image of one entry of
`api_settings.AUTH_TOKEN_CLASSES`. `token_type` is the class attribute
`AuthToken.token_type`; `validate raw` is the constructor call
`AuthToken(raw_token)`, which either returns a wrapper of type `T` or raises
`TokenError` with a message. -/
structure TokenValidator (T : Type) where
  token_type : String
  validate : String → Except String T

/-- The exceptions of the authentication path, mirroring
`rest_framework_simplejwt.exceptions`. `invalidTokenMessages` carries the
`detail` list built by `get_validated_token`: one `(token_type, message)`
pair per failed validator. -/
inductive AuthError where
  | invalidTokenMessages (code : String) (detail : List (String × String))
  | invalidToken (detail : String)
  | authenticationFailed (detail : String) (code : String)
deriving DecidableEq, Repr

/-- Loop body of `JWTAuthentication.get_validated_token`: iterate over the
configured token classes, return the first wrapper that constructs
successfully, and append a `(token_type, message)` entry for each
`TokenError`. -/
def getValidatedTokenLoop {T : Type} (raw_token : String)
    (messages : List (String × String)) :
    List (TokenValidator T) → Except AuthError T
  | [] => .error (.invalidTokenMessages "authentication_failed" messages)
  | authToken :: rest =>
    match authToken.validate raw_token with
    | .ok t => .ok t
    | .error e =>
      getValidatedTokenLoop raw_token
        (messages ++ [(authToken.token_type, e)]) rest

/-- Embedding of `JWTAuthentication.get_validated_token`
(`src/backend/src/apps/users/authentication.py`, lines 25-42). -/
def get_validated_token {T : Type} (classes : List (TokenValidator T))
    (raw_token : String) : Except AuthError T :=
  getValidatedTokenLoop raw_token [] classes

/-- A stored user row of the `BaseUser` model, restricted to the fields the
authentication path reads. `password` is the stored password hash. -/
structure UserRow where
  uuid : String
  password : String
  is_active : Bool
deriving DecidableEq, Repr

/-- The `api_settings` fields that `get_user` reads. -/
structure ApiSettings where
  USER_ID_CLAIM : String
  CHECK_REVOKE_TOKEN : Bool
  REVOKE_TOKEN_CLAIM : String
deriving DecidableEq, Repr

/-- A validated token wrapper: its claim payload as an association list of
string claims. -/
structure ValidatedToken where
  payload : List (String × String)
deriving DecidableEq, Repr

/-- Dictionary-style lookup `validated_token.get(key)` / `validated_token[key]`
on the claim payload: `none` when the claim is absent. -/
def ValidatedToken.getClaim (t : ValidatedToken) (key : String) :
    Option String :=
  (t.payload.find? (fun kv => kv.1 = key)).map (fun kv => kv.2)

/-- Embedding of `JWTAuthentication.get_user`
(`src/backend/src/apps/users/authentication.py`, lines 44-76).
`md5hash` stands for the library function `get_md5_hash_password`; `users` is
the `BaseUser` table, queried by `self.user_model.objects.get(uuid=user_id)`.
The comparison on the revoke claim mirrors
`validated_token.get(REVOKE_TOKEN_CLAIM) != get_md5_hash_password(user.password)`:
the left side is an optional claim value, the right side is always a string,
so an absent claim never compares equal. -/
def get_user (settings : ApiSettings) (md5hash : String → String)
    (users : List UserRow) (validated_token : ValidatedToken) :
    Except AuthError UserRow :=
  match validated_token.getClaim settings.USER_ID_CLAIM with
  | none =>
    .error (.invalidToken "Token contained no recognizable user identification")
  | some user_id =>
    match users.find? (fun u => u.uuid = user_id) with
    | none => .error (.authenticationFailed "User not found" "user_not_found")
    | some user =>
      if user.is_active = false then
        .error (.authenticationFailed "User is inactive" "user_inactive")
      else if settings.CHECK_REVOKE_TOKEN = true ∧
          validated_token.getClaim settings.REVOKE_TOKEN_CLAIM ≠
            some (md5hash user.password) then
        .error (.authenticationFailed
          "The user's password has been changed." "password_changed")
      else
        .ok user

/-- The two exception kinds `ShelterAPIView.permission_denied` can raise:
`NotAuthenticated` or `rest_framework.exceptions.PermissionDenied`. -/
inductive DenialKind where
  | notAuthenticated
  | permissionDenied
deriving DecidableEq, Repr

/-- Embedding of `ShelterAPIView.permission_denied`
(`src/backend/src/apps/users/infrastructure/views/shelter.py`, lines 86-93).
`authenticators` is the request attribute `request.authenticators` (a list,
truthy exactly when non-empty); `successful_authenticator` is
`request.successful_authenticator` (`None` or the authenticator object, which
is truthy). The Python test
`if request.authenticators and not request.successful_authenticator` raises
`NotAuthenticated`, and otherwise `PermissionDenied` is raised. -/
def permission_denied {A : Type} (authenticators : List A)
    (successful_authenticator : Option A) : DenialKind :=
  if !authenticators.isEmpty && successful_authenticator.isNone then
    .notAuthenticated
  else
    .permissionDenied

/-- Response body shapes produced by `ShelterAPIView`: the `201` response has
no body; the `400` response carries
`{"code": "invalid_request_data", "detail": errors}` where `errors` maps each
field name to its list of messages. -/
inductive ResponseBody where
  | empty
  | errorBody (code : String) (detail : List (String × List String))
deriving DecidableEq, Repr

/-- An HTTP response: status code and body. -/
structure HttpResponse where
  status : Nat
  body : ResponseBody
deriving DecidableEq, Repr

/-- The serializer state that `ShelterAPIView.post` consults: the outcome of
`serializer.is_valid()` and, on failure, `serializer.errors` (field name to
message list). -/
structure SerializerState where
  is_valid : Bool
  errors : List (String × List String)
deriving DecidableEq, Repr

/-- Embedding of `ShelterAPIView._handle_valid_request` (lines 95-99): the
application use case runs for its effect and the view returns
`Response(status=HTTP_201_CREATED)` with no data. -/
def handle_valid_request : HttpResponse :=
  { status := 201, body := .empty }

/-- Embedding of `ShelterAPIView._handle_invalid_request` (lines 101-111). -/
def handle_invalid_request (errors : List (String × List String)) :
    HttpResponse :=
  { status := 400, body := .errorBody "invalid_request_data" errors }

/-- Embedding of `ShelterAPIView.post`
(`src/backend/src/apps/users/infrastructure/views/shelter.py`, lines 113-129):
dispatch on `serializer.is_valid()`. -/
def post (serializer : SerializerState) : HttpResponse :=
  if serializer.is_valid then handle_valid_request
  else handle_invalid_request serializer.errors

/-- The optional boolean keyword arguments of `create_base_user` that
`extra_fields` may carry: `none` means the caller did not pass the key. -/
structure ExtraFields where
  is_staff : Option Bool
  is_superuser : Option Bool
  is_active : Option Bool
deriving DecidableEq, Repr

/-- A saved `BaseUser` row as produced by the manager, restricted to the
fields the claims read. -/
structure SavedUser where
  email : String
  password : String
  is_staff : Bool
  is_superuser : Bool
  is_active : Bool
deriving DecidableEq, Repr

/-- The `BaseUser` model field default for `is_active`
(`src/backend/src/apps/users/models.py`, lines 109-111:
`models.BooleanField(db_column="is active", default=False, db_index=True)`). -/
def BaseUser_is_active_default : Bool := false

/-- The `BaseUser` model field default for `is_staff` (line 112). -/
def BaseUser_is_staff_default : Bool := false

/-- The `BaseUser` model field default for `is_superuser` (line 113). -/
def BaseUser_is_superuser_default : Bool := false

/-- Embedding of `CustomUserManager._create_base_user`
(`src/backend/src/apps/users/models.py`, lines 18-36): instantiate the model
with the given fields (keys absent from `extra_fields` take the model field
defaults), hash the password via `set_password`, and save. `normalize` stands
for `self.normalize_email` and `hashpw` for `user.set_password`. -/
def _create_base_user (normalize : String → String)
    (hashpw : String → String) (email : String) (password : String)
    (extra_fields : ExtraFields) : SavedUser :=
  { email := normalize email
    password := hashpw password
    is_staff := extra_fields.is_staff.getD BaseUser_is_staff_default
    is_superuser := extra_fields.is_superuser.getD BaseUser_is_superuser_default
    is_active := extra_fields.is_active.getD BaseUser_is_active_default }

/-- Embedding of `CustomUserManager.create_base_user`
(`src/backend/src/apps/users/models.py`, lines 38-56):
`extra_fields.setdefault("is_staff", False)`,
`extra_fields.setdefault("is_superuser", False)`,
`extra_fields.setdefault("is_active", True)`, then `_create_base_user`. -/
def create_base_user (normalize : String → String)
    (hashpw : String → String) (email : String) (password : String)
    (extra_fields : ExtraFields) : SavedUser :=
  _create_base_user normalize hashpw email password
    { is_staff := some (extra_fields.is_staff.getD false)
      is_superuser := some (extra_fields.is_superuser.getD false)
      is_active := some (extra_fields.is_active.getD true) }

/-- A row of the `JWT` model (`src/backend/src/apps/users/models.py`, lines
243-288), restricted to the fields the blacklist claims read: `jwt_uuid` is
the primary key, `user_uuid` the owning user, `token` the raw token string,
`expires_at` the expiry timestamp. -/
structure JWTRow where
  jwt_uuid : String
  user_uuid : String
  jti : String
  token : String
  expires_at : Nat
deriving DecidableEq, Repr

/-- A row of the `JWTBlacklist` model (`src/backend/src/apps/users/models.py`,
lines 291-315): a one-to-one reference to a `JWT` row by its primary key. -/
structure JWTBlacklistRow where
  token_id : String
deriving DecidableEq, Repr

/-- Modelled from the spec: the blacklist-enforcement step of the
authentication path. The provided source tree declares the `JWTBlacklist`
model but the code that consults it during validation is not under the
provided files; per the spec, a blacklist entry is "one-to-one with a token
record; its mere existence marks that token permanently unusable", and
"Blacklisting a token (inserting its blacklist entry) must cause subsequent
validation of that exact token to be rejected, while other live tokens for
the same user remain valid". A raw token authenticates exactly when its `JWT`
row exists, is unexpired at time `now`, and no blacklist row references its
primary key. -/
def authenticate_raw (jwts : List JWTRow) (blacklist : List JWTBlacklistRow)
    (now : Nat) (raw_token : String) : Bool :=
  match jwts.find? (fun r => r.token = raw_token) with
  | none => false
  | some r =>
    decide (now < r.expires_at) &&
      !(blacklist.any (fun b => b.token_id = r.jwt_uuid))

/-- The `email_in_use` message of `COMMON_ERROR_MESSAGES`
(`src/backend/src/apps/users/infrastructure/serializers/constants.py`,
line 8). -/
def email_in_use_message : String := "Este correo electrónico ya está en uso."

/-- A persisted base identity, restricted to what the registration claims
read: primary key and unique email
(`src/backend/src/apps/users/models.py`, lines 97-105). -/
structure IdentityRow where
  uuid : String
  email : String
deriving DecidableEq, Repr

/-- A persisted role profile (e.g. `Shelter`), one-to-one with a base
identity by its primary key. -/
structure ProfileRow where
  base_user : String
deriving DecidableEq, Repr

/-- The persistent store as the registration use case sees it. -/
structure Store where
  identities : List IdentityRow
  profiles : List ProfileRow
deriving DecidableEq, Repr

/-- Outcome of one registration attempt. -/
inductive RegisterResult where
  | created
  | validationError (field : String) (message : String)
deriving DecidableEq, Repr

/-- Modelled from the spec: the registration use case
(`UserUsesCases.register_user`, imported by the shelter view but not among
the provided files). Per the spec, "validated input (email, password,
role-specific fields) is used to create a base identity plus the
corresponding role profile transactionally — either both are created or
neither. Duplicate email → domain validation failure surfaced as field-level
error, not a crash"; the email column is `unique=True` in the model and the
field-level message is the `email_in_use` entry of `COMMON_ERROR_MESSAGES`.
`new_uuid` is the fresh primary key for the created identity. -/
def register_user (store : Store) (new_uuid : String) (email : String) :
    RegisterResult × Store :=
  if store.identities.any (fun i => i.email = email) then
    (.validationError "email" email_in_use_message, store)
  else
    (.created,
      { identities := { uuid := new_uuid, email := email } :: store.identities
        profiles := { base_user := new_uuid } :: store.profiles })

/-- The HTTP response the shelter view produces for one registration attempt:
a successful use case run yields the `201` response of
`_handle_valid_request`; a field-level validation failure is surfaced through
`_handle_invalid_request` as the `400 invalid_request_data` response. -/
def register_response : RegisterResult → HttpResponse
  | .created => handle_valid_request
  | .validationError field message =>
    handle_invalid_request [(field, [message])]

/-- The message of a failed validation outcome (used to state the all-fail
case of C1; only applied to outcomes known to be errors). -/
def tokenErrorMessage {T : Type} : Except String T → String
  | .error e => e
  | .ok _ => ""

theorem getValidatedTokenLoop_all_fail {T : Type} (raw : String)
    (classes : List (TokenValidator T)) (messages : List (String × String))
    (h : ∀ c ∈ classes, ∃ e, c.validate raw = .error e) :
    getValidatedTokenLoop raw messages classes =
      .error (.invalidTokenMessages "authentication_failed"
        (messages ++ classes.map
          (fun c => (c.token_type, tokenErrorMessage (c.validate raw))))) := by
  induction classes generalizing messages with
  | nil => simp [getValidatedTokenLoop]
  | cons c rest ih =>
    obtain ⟨e, he⟩ := h c (by simp)
    have hrest : ∀ x ∈ rest, ∃ e2, x.validate raw = .error e2 := by
      intro x hx
      exact h x (List.mem_cons_of_mem _ hx)
    simp only [getValidatedTokenLoop, he, ih _ hrest, List.map_cons,
      tokenErrorMessage, List.append_assoc, List.cons_append,
      List.nil_append]

theorem getValidatedTokenLoop_first_ok {T : Type} (raw : String)
    (pre post : List (TokenValidator T)) (c : TokenValidator T) (t : T)
    (hpre : ∀ p ∈ pre, ∃ e, p.validate raw = .error e)
    (hc : c.validate raw = .ok t) (messages : List (String × String)) :
    getValidatedTokenLoop raw messages (pre ++ c :: post) = .ok t := by
  induction pre generalizing messages with
  | nil => simp [getValidatedTokenLoop, hc]
  | cons p rest ih =>
    obtain ⟨e, he⟩ := hpre p (by simp)
    have hrest : ∀ x ∈ rest, ∃ e2, x.validate raw = .error e2 := by
      intro x hx
      exact hpre x (List.mem_cons_of_mem _ hx)
    simp only [List.cons_append, getValidatedTokenLoop, he]
    exact ih hrest _

/-- C1: `get_validated_token` tries each configured validator in declared
order and returns the wrapper produced by the first that succeeds; if every
validator fails it raises `InvalidToken` whose detail list has exactly one
entry per attempted token type, pairing the type name with its failure
message, in order. -/
theorem get_validated_token_spec {T : Type}
    (classes : List (TokenValidator T)) (raw : String) :
    (∀ pre c post t, classes = pre ++ c :: post →
      (∀ p ∈ pre, ∃ e, p.validate raw = .error e) →
      c.validate raw = .ok t →
      get_validated_token classes raw = .ok t)
    ∧ ((∀ c ∈ classes, ∃ e, c.validate raw = .error e) →
      get_validated_token classes raw =
        .error (.invalidTokenMessages "authentication_failed"
          (classes.map
            (fun c => (c.token_type, tokenErrorMessage (c.validate raw)))))) := by
  constructor
  · intro pre c post t hsplit hpre hc
    rw [get_validated_token, hsplit]
    exact getValidatedTokenLoop_first_ok raw pre post c t hpre hc []
  · intro hall
    rw [get_validated_token, getValidatedTokenLoop_all_fail raw classes [] hall]
    simp

/-- Closed instance of C1: two validators that both fail produce the
two-entry detail list; applied through `get_validated_token_spec`. -/
theorem get_validated_token_spec_witness :
    get_validated_token
      [⟨"access", fun _ => (.error "Token is invalid or expired" : Except String Nat)⟩,
       ⟨"refresh", fun _ => .error "Token has wrong type"⟩] "rawtok" =
      .error (.invalidTokenMessages "authentication_failed"
        [("access", "Token is invalid or expired"),
         ("refresh", "Token has wrong type")]) := by
  have h :=
    (get_validated_token_spec
      [⟨"access", fun _ => (.error "Token is invalid or expired" : Except String Nat)⟩,
       ⟨"refresh", fun _ => .error "Token has wrong type"⟩] "rawtok").2
      (by
        intro c hc
        simp only [List.mem_cons, List.not_mem_nil, or_false] at hc
        rcases hc with h1 | h1
        · exact ⟨"Token is invalid or expired", by rw [h1]⟩
        · exact ⟨"Token has wrong type", by rw [h1]⟩)
  simpa [tokenErrorMessage] using h

/-- C7: when the user-identity claim of a validated token matches no stored
user, `get_user` fails with `AuthenticationFailed` carrying code
`user_not_found`. -/
theorem get_user_user_not_found (settings : ApiSettings)
    (md5hash : String → String) (users : List UserRow)
    (tok : ValidatedToken) (uid : String)
    (hclaim : tok.getClaim settings.USER_ID_CLAIM = some uid)
    (hnouser : ∀ u ∈ users, u.uuid ≠ uid) :
    get_user settings md5hash users tok =
      .error (.authenticationFailed "User not found" "user_not_found") := by
  have hfind : users.find? (fun u => u.uuid = uid) = none := by
    rw [List.find?_eq_none]
    intro u hu
    simpa using hnouser u hu
  simp only [get_user, hclaim, hfind]

/-- Closed instance of C7: a token whose identity claim names a uuid absent
from the user table is rejected with `user_not_found`; applied through
`get_user_user_not_found`. -/
theorem get_user_user_not_found_witness :
    get_user ⟨"user_uuid", true, "revoke"⟩ (fun s => s)
      [⟨"u1", "pw1", true⟩] ⟨[("user_uuid", "ghost")]⟩ =
      .error (.authenticationFailed "User not found" "user_not_found") :=
  get_user_user_not_found ⟨"user_uuid", true, "revoke"⟩ (fun s => s)
    [⟨"u1", "pw1", true⟩] ⟨[("user_uuid", "ghost")]⟩ "ghost"
    (by rfl) (by decide)

/-- C8: when the identity claim resolves to a stored user whose `is_active`
flag is false, `get_user` fails with `AuthenticationFailed` carrying code
`user_inactive`; the statement holds for every `CHECK_REVOKE_TOKEN` setting
and every claim payload, so the inactive check fires before any
revocation-claim check. -/
theorem get_user_user_inactive (settings : ApiSettings)
    (md5hash : String → String) (users : List UserRow)
    (tok : ValidatedToken) (uid : String) (user : UserRow)
    (hclaim : tok.getClaim settings.USER_ID_CLAIM = some uid)
    (hfind : users.find? (fun u => u.uuid = uid) = some user)
    (hinactive : user.is_active = false) :
    get_user settings md5hash users tok =
      .error (.authenticationFailed "User is inactive" "user_inactive") := by
  simp only [get_user, hclaim, hfind]
  simp [hinactive]

/-- Closed instance of C8: an inactive user is rejected with `user_inactive`
even with the revocation check enabled and a matching revoke claim; applied
through `get_user_user_inactive`. -/
theorem get_user_user_inactive_witness :
    get_user ⟨"user_uuid", true, "revoke"⟩ (fun s => s)
      [⟨"u1", "pw1", false⟩] ⟨[("user_uuid", "u1"), ("revoke", "pw1")]⟩ =
      .error (.authenticationFailed "User is inactive" "user_inactive") :=
  get_user_user_inactive ⟨"user_uuid", true, "revoke"⟩ (fun s => s)
    [⟨"u1", "pw1", false⟩] ⟨[("user_uuid", "u1"), ("revoke", "pw1")]⟩
    "u1" ⟨"u1", "pw1", false⟩ (by rfl) (by rfl) (by rfl)

/-- C3: with the revocation-claim check enabled, for a token whose subject
user exists and is active, `get_user` fails with `AuthenticationFailed`
carrying code `password_changed` exactly when the embedded revocation claim
differs from the fingerprint of the current stored password hash; when the
claim matches the fingerprint, resolution returns the user. Hence a token
carrying the fingerprint of an old password fails once the stored hash
changes, while a token freshly issued with the new fingerprint resolves. -/
theorem get_user_password_changed_spec (settings : ApiSettings)
    (md5hash : String → String) (users : List UserRow)
    (tok : ValidatedToken) (uid : String) (user : UserRow)
    (hclaim : tok.getClaim settings.USER_ID_CLAIM = some uid)
    (hfind : users.find? (fun u => u.uuid = uid) = some user)
    (hactive : user.is_active = true)
    (hcheck : settings.CHECK_REVOKE_TOKEN = true) :
    (get_user settings md5hash users tok =
        .error (.authenticationFailed
          "The user's password has been changed." "password_changed")
      ↔ tok.getClaim settings.REVOKE_TOKEN_CLAIM ≠
          some (md5hash user.password))
    ∧ (tok.getClaim settings.REVOKE_TOKEN_CLAIM =
        some (md5hash user.password) →
      get_user settings md5hash users tok = .ok user) := by
  simp only [get_user, hclaim, hfind]
  by_cases hrv :
      tok.getClaim settings.REVOKE_TOKEN_CLAIM = some (md5hash user.password)
  · simp [hactive, hcheck, hrv]
  · simp [hactive, hcheck, hrv]

/-- Closed instance of C3: with a stored hash `newpw`, a token carrying the
old fingerprint fails with `password_changed` and a token carrying the new
fingerprint resolves to the user; both directions applied through
`get_user_password_changed_spec`. -/
theorem get_user_password_changed_spec_witness :
    get_user ⟨"user_uuid", true, "revoke"⟩ (fun s => "md5:" ++ s)
      [⟨"u1", "newpw", true⟩]
      ⟨[("user_uuid", "u1"), ("revoke", "md5:oldpw")]⟩ =
      .error (.authenticationFailed
        "The user's password has been changed." "password_changed")
    ∧ get_user ⟨"user_uuid", true, "revoke"⟩ (fun s => "md5:" ++ s)
      [⟨"u1", "newpw", true⟩]
      ⟨[("user_uuid", "u1"), ("revoke", "md5:newpw")]⟩ =
      .ok ⟨"u1", "newpw", true⟩ := by
  constructor
  · exact
      (get_user_password_changed_spec ⟨"user_uuid", true, "revoke"⟩
        (fun s => "md5:" ++ s) [⟨"u1", "newpw", true⟩]
        ⟨[("user_uuid", "u1"), ("revoke", "md5:oldpw")]⟩ "u1"
        ⟨"u1", "newpw", true⟩ (by rfl) (by rfl) (by rfl) (by rfl)).1.mpr
        (by decide)
  · exact
      (get_user_password_changed_spec ⟨"user_uuid", true, "revoke"⟩
        (fun s => "md5:" ++ s) [⟨"u1", "newpw", true⟩]
        ⟨[("user_uuid", "u1"), ("revoke", "md5:newpw")]⟩ "u1"
        ⟨"u1", "newpw", true⟩ (by rfl) (by rfl) (by rfl) (by rfl)).2
        (by decide)

/-- C9: with the revocation-claim check enabled, a validated token carrying
no revocation claim at all, whose subject user exists and is active, is
rejected by `get_user` with `AuthenticationFailed` carrying code
`password_changed`: the absent claim reads as `none` and never equals the
fingerprint string, so the check fails closed. -/
theorem get_user_missing_revoke_claim (settings : ApiSettings)
    (md5hash : String → String) (users : List UserRow)
    (tok : ValidatedToken) (uid : String) (user : UserRow)
    (hclaim : tok.getClaim settings.USER_ID_CLAIM = some uid)
    (hfind : users.find? (fun u => u.uuid = uid) = some user)
    (hactive : user.is_active = true)
    (hcheck : settings.CHECK_REVOKE_TOKEN = true)
    (habsent : tok.getClaim settings.REVOKE_TOKEN_CLAIM = none) :
    get_user settings md5hash users tok =
      .error (.authenticationFailed
        "The user's password has been changed." "password_changed") := by
  simp only [get_user, hclaim, hfind]
  simp [hactive, hcheck, habsent]

/-- Closed instance of C9: a token with only an identity claim, for an
active stored user, is rejected with `password_changed`; applied through
`get_user_missing_revoke_claim`. -/
theorem get_user_missing_revoke_claim_witness :
    get_user ⟨"user_uuid", true, "revoke"⟩ (fun s => "md5:" ++ s)
      [⟨"u1", "pw1", true⟩] ⟨[("user_uuid", "u1")]⟩ =
      .error (.authenticationFailed
        "The user's password has been changed." "password_changed") :=
  get_user_missing_revoke_claim ⟨"user_uuid", true, "revoke"⟩
    (fun s => "md5:" ++ s) [⟨"u1", "pw1", true⟩] ⟨[("user_uuid", "u1")]⟩
    "u1" ⟨"u1", "pw1", true⟩ (by rfl) (by rfl) (by rfl) (by rfl) (by rfl)

/-- C6: the denial handler raises `NotAuthenticated` exactly when at least
one authenticator was configured for the request and none succeeded, and
raises `PermissionDenied` in every other case (no authenticators configured,
or one succeeded). -/
theorem permission_denied_spec {A : Type} (authenticators : List A)
    (successful_authenticator : Option A) :
    (permission_denied authenticators successful_authenticator =
        .notAuthenticated
      ↔ authenticators ≠ [] ∧ successful_authenticator = none)
    ∧ (permission_denied authenticators successful_authenticator =
        .permissionDenied
      ↔ authenticators = [] ∨ successful_authenticator ≠ none) := by
  cases authenticators with
  | nil => cases successful_authenticator <;> simp [permission_denied]
  | cons a rest => cases successful_authenticator <;> simp [permission_denied]

/-- Closed instance of C6: one configured authenticator and no successful
one yields `NotAuthenticated`; no configured authenticator yields
`PermissionDenied`; applied through `permission_denied_spec`. -/
theorem permission_denied_spec_witness :
    permission_denied ["jwt"] (none : Option String) = .notAuthenticated
    ∧ permission_denied ([] : List String) (none : Option String) =
        .permissionDenied := by
  constructor
  · exact (permission_denied_spec ["jwt"] (none : Option String)).1.mpr
      (by simp)
  · exact (permission_denied_spec ([] : List String)
      (none : Option String)).2.mpr (by simp)

/-- C5: the POST handler returns `201 Created` with an empty body when the
serializer accepts the input, and a `400` response whose body is exactly
`code = invalid_request_data` with the field-to-messages error mapping when
validation fails. -/
theorem post_spec (serializer : SerializerState) :
    (serializer.is_valid = true →
      post serializer = { status := 201, body := .empty })
    ∧ (serializer.is_valid = false →
      post serializer =
        { status := 400,
          body := .errorBody "invalid_request_data" serializer.errors }) := by
  constructor
  · intro h
    simp [post, h, handle_valid_request]
  · intro h
    simp [post, h, handle_invalid_request]

/-- Closed instance of C5: a valid serializer yields the empty `201`
response and an invalid one yields the shaped `400` response; applied
through `post_spec`. -/
theorem post_spec_witness :
    post ⟨true, []⟩ = { status := 201, body := .empty }
    ∧ post ⟨false, [("email", ["Este campo es requerido."])]⟩ =
      { status := 400,
        body := .errorBody "invalid_request_data"
          [("email", ["Este campo es requerido."])] } := by
  constructor
  · exact (post_spec ⟨true, []⟩).1 (by rfl)
  · exact (post_spec ⟨false, [("email", ["Este campo es requerido."])]⟩).2
      (by rfl)

/-- C10: `create_base_user` without explicit `is_staff`, `is_superuser` or
`is_active` keywords saves a user with `is_staff = false`,
`is_superuser = false` and `is_active = true`, although the model field
default for `is_active` is `false`, so a user instantiated outside this
manager method (`_create_base_user` with no `is_active` key) is saved
inactive. -/
theorem create_base_user_defaults (normalize hashpw : String → String)
    (email password : String) (extra_fields : ExtraFields)
    (hstaff : extra_fields.is_staff = none)
    (hsuper : extra_fields.is_superuser = none)
    (hactive : extra_fields.is_active = none) :
    (create_base_user normalize hashpw email password
        extra_fields).is_staff = false
    ∧ (create_base_user normalize hashpw email password
        extra_fields).is_superuser = false
    ∧ (create_base_user normalize hashpw email password
        extra_fields).is_active = true
    ∧ BaseUser_is_active_default = false
    ∧ (_create_base_user normalize hashpw email password
        extra_fields).is_active = false := by
  refine ⟨?_, ?_, ?_, rfl, ?_⟩ <;>
    simp [create_base_user, _create_base_user, hstaff, hsuper, hactive,
      BaseUser_is_active_default, BaseUser_is_staff_default,
      BaseUser_is_superuser_default]

/-- Closed instance of C10: with no explicit flags the manager saves an
active non-staff non-superuser, while the bare model instantiation saves an
inactive user; applied through `create_base_user_defaults`. -/
theorem create_base_user_defaults_witness :
    (create_base_user (fun s => s) (fun s => "hash:" ++ s)
        "a@b.com" "secret12" ⟨none, none, none⟩).is_staff = false
    ∧ (create_base_user (fun s => s) (fun s => "hash:" ++ s)
        "a@b.com" "secret12" ⟨none, none, none⟩).is_superuser = false
    ∧ (create_base_user (fun s => s) (fun s => "hash:" ++ s)
        "a@b.com" "secret12" ⟨none, none, none⟩).is_active = true
    ∧ BaseUser_is_active_default = false
    ∧ (_create_base_user (fun s => s) (fun s => "hash:" ++ s)
        "a@b.com" "secret12" ⟨none, none, none⟩).is_active = false :=
  create_base_user_defaults (fun s => s) (fun s => "hash:" ++ s)
    "a@b.com" "secret12" ⟨none, none, none⟩ (by rfl) (by rfl) (by rfl)

/-- C2: once a blacklist row referencing the token record is inserted, that
exact raw token no longer authenticates, while every other live token row
(distinct primary key, same user, previously authenticating) still
authenticates. Stated over the spec-modelled `authenticate_raw`. -/
theorem blacklist_rejects_exact_token (jwts : List JWTRow)
    (blacklist : List JWTBlacklistRow) (now : Nat) (r : JWTRow)
    (raw_token : String)
    (hfind : jwts.find? (fun x => x.token = raw_token) = some r) :
    authenticate_raw jwts ({ token_id := r.jwt_uuid } :: blacklist) now
        raw_token = false
    ∧ (∀ r2 : JWTRow, r2.user_uuid = r.user_uuid →
      r2.jwt_uuid ≠ r.jwt_uuid →
      jwts.find? (fun x => x.token = r2.token) = some r2 →
      authenticate_raw jwts blacklist now r2.token = true →
      authenticate_raw jwts ({ token_id := r.jwt_uuid } :: blacklist) now
        r2.token = true) := by
  constructor
  · simp [authenticate_raw, hfind]
  · intro r2 _ hne hfind2 hlive
    simp only [authenticate_raw, hfind2] at hlive ⊢
    simpa [List.any_cons, Ne.symm hne] using hlive

/-- Closed instance of C2: blacklisting the record of token `t1` rejects
`t1` and leaves the same user token `t2` authenticating; applied through
`blacklist_rejects_exact_token`. -/
theorem blacklist_rejects_exact_token_witness :
    authenticate_raw
      [⟨"j1", "u1", "jti1", "t1", 100⟩, ⟨"j2", "u1", "jti2", "t2", 100⟩]
      [{ token_id := "j1" }] 50 "t1" = false
    ∧ authenticate_raw
      [⟨"j1", "u1", "jti1", "t1", 100⟩, ⟨"j2", "u1", "jti2", "t2", 100⟩]
      [{ token_id := "j1" }] 50 "t2" = true := by
  have h := blacklist_rejects_exact_token
    [⟨"j1", "u1", "jti1", "t1", 100⟩, ⟨"j2", "u1", "jti2", "t2", 100⟩]
    [] 50 ⟨"j1", "u1", "jti1", "t1", 100⟩ "t1" (by decide)
  exact ⟨h.1, h.2 ⟨"j2", "u1", "jti2", "t2", 100⟩ (by decide) (by decide)
    (by decide) (by decide)⟩

/-- C4: of two registration attempts with the same email against a store not
yet holding that email, the first succeeds (creating identity and profile
together) and the second fails with the field-scoped email-in-use validation
error, surfaced as the `400 invalid_request_data` response, leaving the
store untouched (no partial identity or profile). Stated over the
spec-modelled `register_user`. -/
theorem register_duplicate_email (store : Store)
    (uuid1 uuid2 email : String)
    (hfresh : ∀ i ∈ store.identities, i.email ≠ email) :
    (register_user store uuid1 email).1 = .created
    ∧ register_response (register_user store uuid1 email).1 =
        { status := 201, body := .empty }
    ∧ (register_user store uuid1 email).2.identities.length =
        store.identities.length + 1
    ∧ (register_user store uuid1 email).2.profiles.length =
        store.profiles.length + 1
    ∧ (register_user (register_user store uuid1 email).2 uuid2 email).1 =
        .validationError "email" email_in_use_message
    ∧ register_response
        (register_user (register_user store uuid1 email).2 uuid2 email).1 =
        { status := 400,
          body := .errorBody "invalid_request_data"
            [("email", [email_in_use_message])] }
    ∧ (register_user (register_user store uuid1 email).2 uuid2 email).2 =
        (register_user store uuid1 email).2 := by
  have hany : store.identities.any (fun i => i.email = email) = false := by
    rw [List.any_eq_false]
    intro i hi
    simpa using hfresh i hi
  have h1 : register_user store uuid1 email =
      (.created,
        { identities := { uuid := uuid1, email := email } :: store.identities
          profiles := { base_user := uuid1 } :: store.profiles }) := by
    simp [register_user, hany]
  have h2 : register_user
      { identities := { uuid := uuid1, email := email } :: store.identities
        profiles := { base_user := uuid1 } :: store.profiles } uuid2 email =
      (.validationError "email" email_in_use_message,
        { identities := { uuid := uuid1, email := email } :: store.identities
          profiles := { base_user := uuid1 } :: store.profiles }) := by
    simp [register_user]
  exact ⟨by rw [h1], by rw [h1]; rfl, by rw [h1]; rfl, by rw [h1]; rfl,
    by rw [h1, h2], by rw [h1, h2]; rfl, by rw [h1, h2]⟩

/-- Closed instance of C4: registering the same email twice against an empty
store gives one `201` success and one `400 invalid_request_data` rejection
with the email-in-use message, and the failing attempt persists nothing;
applied through `register_duplicate_email`. -/
theorem register_duplicate_email_witness :
    (register_user ⟨[], []⟩ "u1" "a@b.com").1 = .created
    ∧ register_response
        (register_user (register_user ⟨[], []⟩ "u1" "a@b.com").2 "u2"
          "a@b.com").1 =
        { status := 400,
          body := .errorBody "invalid_request_data"
            [("email", [email_in_use_message])] }
    ∧ (register_user (register_user ⟨[], []⟩ "u1" "a@b.com").2 "u2"
        "a@b.com").2 = (register_user ⟨[], []⟩ "u1" "a@b.com").2 := by
  have h := register_duplicate_email ⟨[], []⟩ "u1" "u2" "a@b.com"
    (by intro i hi; cases hi)
  exact ⟨h.1, h.2.2.2.2.2.1, h.2.2.2.2.2.2⟩

end PetAdoption
